import Mathlib

/-!
Shallow embedding of the marketing-dashboard pipeline
(`src/codigo_corregido.py`): data loading and feature derivation
(`cargar_datos`), the three-dimension set-membership filter
(`df_filtrado`), the metric / chart / insight stage of the script, and
the aggregate helpers (`gasto_por_rango`, pandas `Series.mode`), together
with theorems settling the specification claims.

Conventions: pandas missing values (NaN) are `Option.none`; numeric
amounts are `ℚ`; a raised Python exception is `Except.error`.
-/

/-- One data row of the semicolon-separated CSV, as `pd.read_csv` hands it
to the script.  `gender` is the value in the `Gender` column; whether that
column exists at all is tracked at file level (the script branches on
`"Gender" in df.columns`, not per row). -/
structure RawRow where
  year_Birth : Int
  marital_Status : Option String
  gender : Option String
  mntWines : Option ℚ
  mntFruits : Option ℚ
  mntMeatProducts : Option ℚ
  mntFishProducts : Option ℚ
  mntSweetProducts : Option ℚ
  mntGoldProds : Option ℚ
deriving DecidableEq, Repr

/-- An enriched row after `cargar_datos`: derived `Edad`, `GastoTotal`,
renamed `EstadoCivil`, derived `Genero` and `RangoEdad`. -/
structure Record where
  edad : Int
  gastoTotal : ℚ
  estadoCivil : Option String
  genero : Option String
  rangoEdad : Option String
deriving DecidableEq, Repr

/-- `bins = list(range(10, 101, 10))` — the `pd.cut` bin edges. -/
def bins : List Int := (List.range 10).map (fun i => 10 + 10 * (i : Int))

/-- `labels = [f"{i}-{i+9}" for i in bins[:-1]]`. -/
def cutLabels : List String :=
  bins.dropLast.map (fun b => toString b ++ "-" ++ toString (b + 9))

/-- The bin index `pd.cut(x, bins=bins, right=False)` assigns to `x`: the
index of the first pair of consecutive edges with `bins[i] <= x <
bins[i+1]`, if any. -/
def pdCutIndex (x : Int) : Option Nat :=
  (bins.zip bins.tail).findIdx? (fun p => decide (p.1 ≤ x ∧ x < p.2))

/-- `df["RangoEdad"] = pd.cut(df["Edad"], bins=bins, labels=labels,
right=False)` applied to one age: the label of the bin, `NaN` when the age
falls in no bin. -/
def rangoEdadOf (x : Int) : Option String :=
  (pdCutIndex x).map (fun i => cutLabels.getD i "")

/-- `df["Gender"].map({"M": "Hombre", "F": "Mujer"})` on one value:
unmatched values (`NaN` included) become `NaN`. -/
def mapGenderMF (g : Option String) : Option String :=
  g.bind (fun v => if v = "M" then some "Hombre"
                   else if v = "F" then some "Mujer" else none)

/-- Modelled from the spec: the seeded generator behind
`np.random.seed(42); np.random.choice(["Hombre","Mujer"], size=len(df))`
is numpy library code, not part of this repository.  Per the spec it is a
deterministic uniform choice between the two labels, a function of the
fixed seed and the draw (row) index only; any such function is a faithful
model of the properties claimed here. -/
def npRandomChoiceHM (seed : Nat) (i : Nat) : String :=
  if (seed + 7 * i) % 2 = 0 then "Hombre" else "Mujer"

/-- The six `Mnt*` amounts with `fillna(0)` applied, summed
(`df[cols].fillna(0).sum(axis=1)`). -/
def gastoTotalOf (row : RawRow) : ℚ :=
  (row.mntWines.getD 0) + (row.mntFruits.getD 0) + (row.mntMeatProducts.getD 0)
    + (row.mntFishProducts.getD 0) + (row.mntSweetProducts.getD 0)
    + (row.mntGoldProds.getD 0)

/-- The body of `cargar_datos` on one row: `hasGenderCol` is
`"Gender" in df.columns`, `i` the row's position (the synthesized gender
column is drawn positionally), `cy` the `pd.Timestamp.now().year` read. -/
def enrichRow (cy : Int) (hasGenderCol : Bool) (i : Nat) (row : RawRow) : Record :=
  { edad := cy - row.year_Birth
    gastoTotal := gastoTotalOf row
    estadoCivil := row.marital_Status
    genero := if hasGenderCol then mapGenderMF row.gender
              else some (npRandomChoiceHM 42 i)
    rangoEdad := rangoEdadOf (cy - row.year_Birth) }

/-- Enrich a whole table, row positions preserved. -/
def enrichAll (cy : Int) (hasGenderCol : Bool) (rows : List RawRow) : List Record :=
  rows.enum.map (fun p => enrichRow cy hasGenderCol p.1 p.2)

/-- What `pd.read_csv(path, sep=";")` can meet: an unopenable file, a file
with no columns at all, or a header plus a (possibly empty) list of data
rows, with or without a `Gender` column. -/
inductive FileContent
  | unreadable
  | emptyFile
  | table (hasGenderCol : Bool) (rows : List RawRow)
deriving DecidableEq, Repr

/-- `cargar_datos(path)`: `pd.read_csv` raises `OSError` when the file
cannot be opened and `EmptyDataError` when it has no columns; otherwise
the enrichment pipeline runs over the data rows in file order. -/
def cargarDatos (cy : Int) : FileContent → Except String (List Record)
  | .unreadable => .error "OSError"
  | .emptyFile => .error "EmptyDataError"
  | .table hasG rows => .ok (enrichAll cy hasG rows)

/-- `series.isin(values)` for one cell against string options: a missing
cell matches no string option. -/
def isin (o : Option String) (allowed : List String) : Bool :=
  match o with
  | some v => allowed.contains v
  | none => false

/-- The sidebar filter,
`df[df["EstadoCivil"].isin(fE) & df["RangoEdad"].isin(fB) & df["Genero"].isin(fG)]`. -/
def filterRecords (df : List Record) (fE fB fG : List String) : List Record :=
  df.filter (fun r => isin r.estadoCivil fE && isin r.rangoEdad fB && isin r.genero fG)

/-- `series.dropna().unique()` viewed as the list of distinct non-null
values (only set membership of the options matters downstream). -/
def dropnaUnique (xs : List (Option String)) : List String :=
  (xs.filterMap id).dedup

/-- `estados_civiles = df["EstadoCivil"].dropna().unique()`. -/
def estadosCiviles (df : List Record) : List String :=
  dropnaUnique (df.map (·.estadoCivil))

/-- `rangos_edades = df["RangoEdad"].dropna().unique()`. -/
def rangosEdades (df : List Record) : List String :=
  dropnaUnique (df.map (·.rangoEdad))

/-- `generos = df["Genero"].dropna().unique()`. -/
def generos (df : List Record) : List String :=
  dropnaUnique (df.map (·.genero))

/-- `series.mean()`: `NaN` on an empty series, the arithmetic mean
otherwise. -/
def meanOpt (xs : List ℚ) : Option ℚ :=
  if xs.length = 0 then none else some (xs.sum / xs.length)

/-- `gasto_por_rango = df_filtrado.groupby("RangoEdad")["GastoTotal"].mean()
.reset_index()`: `RangoEdad` is categorical (built by `pd.cut`), so the
groupby (default `observed=False`) emits every category in category order,
an empty group averaging to `NaN`; rows whose `RangoEdad` is `NaN` belong
to no group (default `dropna=True`). -/
def gastoPorRango (sub : List Record) : List (String × Option ℚ) :=
  cutLabels.map (fun b =>
    (b, meanOpt ((sub.filter (fun r => r.rangoEdad = some b)).map (·.gastoTotal))))

/-- Lexicographic comparison of char lists by code point, the order
Python (and hence pandas sorting of string values) uses. -/
def charsLeb : List Char → List Char → Bool
  | [], _ => true
  | _ :: _, [] => false
  | a :: as, b :: bs => if a < b then true else if b < a then false else charsLeb as bs

/-- Lexicographic string comparison by code point. -/
def strLeb (a b : String) : Bool := charsLeb a.data b.data

/-- Occurrences of a value in a column (`(series == v).sum()` /
the counts behind `series.mode()`). -/
def countVal (xs : List String) (v : String) : Nat := xs.count v

/-- The largest occurrence count over the distinct values of `xs`. -/
def maxCount (xs : List String) : Nat :=
  ((xs.dedup.map (countVal xs)).foldr max 0)

/-- `series.mode()` over the non-null values: the distinct values of
maximal count, returned sorted ascending (pandas sorts the mode result). -/
def modeList (xs : List String) : List String :=
  List.insertionSort (fun a b => strLeb a b = true)
    (xs.dedup.filter (fun v => countVal xs v = maxCount xs))

/-- `series.mode()[0]` — `none` models the `KeyError` of indexing an empty
mode result. -/
def modeFirst (xs : List String) : Option String := (modeList xs).head?

/-- `series.median()` on a list of rationals: `NaN` when empty, else the
middle of the sorted values (mean of the two middles for even length). -/
def medianQ (xs : List ℚ) : Option ℚ :=
  if xs.length = 0 then none
  else
    let s := List.insertionSort (· ≤ ·) xs
    if xs.length % 2 = 1 then some (s.getD (xs.length / 2) 0)
    else some ((s.getD (xs.length / 2 - 1) 0 + s.getD (xs.length / 2) 0) / 2)

/-- Python `int(...)` on a rational: truncation toward zero. -/
def pythonInt (q : ℚ) : Int := if 0 ≤ q then ⌊q⌋ else ⌈q⌉

/-- `series.idxmax()` over positionally indexed optional values: the first
index holding the maximum of the non-`NaN` values (`skipna` default);
`none` when every value is `NaN` (pandas raises there). -/
def idxmaxOpt (l : List (Option ℚ)) : Option Nat :=
  (l.enum.filterMap (fun p => p.2.map (fun q => (p.1, q)))).foldl
    (fun best p =>
      match best with
      | none => some p
      | some b => if p.2 > b.2 then some p else some b)
    none
  |>.map (·.1)

/-- `series.value_counts()` over non-null values: distinct values with
their counts, sorted by descending count (tie order immaterial to any
claim). -/
def valueCounts (xs : List String) : List (String × Nat) :=
  List.insertionSort (fun a b => b.2 ≤ a.2)
    (xs.dedup.map (fun v => (v, countVal xs v)))

/-- The population-pyramid trace data of `fig4`: ages with a non-null
`Genero`, ascending (`groupby` sorts keys), each with the `Hombre` count
sign-negated (`pop["Hombre"] = -pop["Hombre"]`) and the `Mujer` count. -/
def piramide (sub : List Record) : List (Int × Int × Nat) :=
  (List.insertionSort (· ≤ ·)
      ((sub.filter (fun r => r.genero ≠ none)).map (·.edad)).dedup).map
    (fun a =>
      (a,
       -(((sub.filter (fun r => r.edad = a ∧ r.genero = some "Hombre")).length : Int)),
       (sub.filter (fun r => r.edad = a ∧ r.genero = some "Mujer")).length))

/-- The data handed to the five charts (drawn only past the
`df_filtrado.empty` guard). -/
structure Charts where
  histogramaEdades : List Int
  boxplotEdadEstado : List (Option String × Int)
  gastoPorRangoChart : List (String × Option ℚ)
  piramideChart : List (Int × Int × Nat)
  generoCountsChart : List (String × Nat)
deriving DecidableEq, Repr

/-- The three insight facts of the final `st.markdown`. -/
structure Insights where
  publicoObjetivo : Int
  gastoTopRango : String
  gastoTopValor : Option ℚ
  estadoCivilComun : String
deriving DecidableEq, Repr

/-- Everything the script renders for one filter selection.  The metric
row always renders; `despuesDeStop` is `none` when `st.stop()` cut the run
before the charts and insights. -/
structure DashboardOutput where
  clientesSegmentados : Nat
  pctDelTotal : ℚ
  gastoProm : Option ℚ
  edadProm : Option ℚ
  generoDominante : Option (String × Nat)
  despuesDeStop : Option (Charts × Insights)
deriving DecidableEq, Repr

/-- The metric / chart / insight stage of the script on the full dataset
`df` and the filtered subset `sub`.  Fallible spots are explicit:
`len(df_filtrado)/len(df)` raises on an empty full dataset, `mode()[0]`
raises on an all-null column, `idxmax` raises when every group mean is
`NaN`. -/
def renderDashboard (df sub : List Record) : Except String DashboardOutput := do
  if df.length = 0 then throw "ZeroDivisionError"
  let pct : ℚ := (sub.length : ℚ) / (df.length : ℚ) * 100
  let gastoProm := meanOpt (sub.map (·.gastoTotal))
  let edadProm := meanOpt (sub.map (fun r => (r.edad : ℚ)))
  let generoDom : Option (String × Nat) ←
    if sub.isEmpty then pure none
    else
      match modeFirst (sub.filterMap (·.genero)) with
      | some g => pure (some (g, (sub.filterMap (·.genero)).count g))
      | none => throw "KeyError"
  if sub.isEmpty then
    return { clientesSegmentados := 0, pctDelTotal := pct,
             gastoProm := gastoProm, edadProm := edadProm,
             generoDominante := generoDom, despuesDeStop := none }
  let gpr := gastoPorRango sub
  let charts : Charts :=
    { histogramaEdades := sub.map (·.edad)
      boxplotEdadEstado := sub.map (fun r => (r.estadoCivil, r.edad))
      gastoPorRangoChart := gpr
      piramideChart := piramide sub
      generoCountsChart := valueCounts (sub.filterMap (·.genero)) }
  let pubObjetivo ←
    match medianQ (sub.map (fun r => (r.edad : ℚ))) with
    | some m => pure (pythonInt m)
    | none => throw "ValueError"
  let topIdx ←
    match idxmaxOpt (gpr.map (·.2)) with
    | some i => pure i
    | none => throw "ValueError"
  let top := gpr.getD topIdx ("", none)
  let estadoComun ←
    match modeFirst (sub.filterMap (·.estadoCivil)) with
    | some e => pure e
    | none => throw "KeyError"
  return { clientesSegmentados := sub.length, pctDelTotal := pct,
           gastoProm := gastoProm, edadProm := edadProm,
           generoDominante := generoDom,
           despuesDeStop := some (charts,
             { publicoObjetivo := pubObjetivo, gastoTopRango := top.1,
               gastoTopValor := top.2, estadoCivilComun := estadoComun }) }

/-- Propositional reading of "the cell's value is a member of the allowed
set": the cell is non-null and its value is among the options. -/
def optMem (o : Option String) (s : List String) : Prop :=
  ∃ v, o = some v ∧ v ∈ s

/-- The `Genero` column of a load result, for comparing two runs. -/
def generoColumn (res : Except String (List Record)) :
    Except String (List (Option String)) :=
  res.map (fun recs => recs.map (·.genero))

/-- A raw row born in 2019: at load year 2024 its age is 5, outside every
`pd.cut` bin, so its `RangoEdad` is null. -/
def rawJoven : RawRow :=
  { year_Birth := 2019, marital_Status := some "Single", gender := some "M",
    mntWines := some 10, mntFruits := none, mntMeatProducts := none,
    mntFishProducts := none, mntSweetProducts := none, mntGoldProds := none }

/-- A raw row born in 1999: at load year 2024 its age is 25 (bracket
`20-29`); total spend 10. -/
def rawVeinte : RawRow :=
  { year_Birth := 1999, marital_Status := some "Single", gender := some "F",
    mntWines := some 10, mntFruits := none, mntMeatProducts := none,
    mntFishProducts := none, mntSweetProducts := none, mntGoldProds := none }

/-- A raw row whose `Gender` cell holds `"X"`, a value outside the
`{"M","F"}` mapping. -/
def rawGenX : RawRow :=
  { year_Birth := 1990, marital_Status := some "Married", gender := some "X",
    mntWines := none, mntFruits := some 5, mntMeatProducts := none,
    mntFishProducts := none, mntSweetProducts := none, mntGoldProds := none }

/-- The one-row dataset enriched from `rawJoven` (load year 2024, `Gender`
column present). -/
def dfJoven : List Record := enrichAll 2024 true [rawJoven]

/-- The one-row dataset enriched from `rawVeinte` (load year 2024,
`Gender` column present). -/
def dfVeinte : List Record := enrichAll 2024 true [rawVeinte]

/-- `charsLeb` agrees with the lexicographic order on `List Char`. -/
theorem charsLeb_iff (l₁ l₂ : List Char) : charsLeb l₁ l₂ = true ↔ l₁ ≤ l₂ := by
  rw [← not_lt]
  induction l₁ generalizing l₂ with
  | nil =>
    cases l₂ with
    | nil => simp [charsLeb]
    | cons b bs => simp [charsLeb]
  | cons a as ih =>
    cases l₂ with
    | nil =>
      simp [charsLeb]
      exact List.Lex.nil
    | cons b bs =>
      show (if a < b then true else if b < a then false else charsLeb as bs) = true ↔ _
      rcases lt_trichotomy a b with hab | hab | hab
      · rw [if_pos hab]
        simp only [true_iff]
        intro hlt
        cases hlt with
        | cons h => exact absurd hab (lt_irrefl a)
        | rel h => exact absurd (hab.trans h) (lt_irrefl a)
      · subst hab
        rw [if_neg (lt_irrefl a), if_neg (lt_irrefl a)]
        rw [ih bs]
        constructor
        · intro h hlt
          cases hlt with
          | cons h2 => exact h h2
          | rel h2 => exact absurd h2 (lt_irrefl a)
        · intro h hlt
          exact h (List.Lex.cons hlt)
      · rw [if_neg (by exact fun h => absurd (h.trans hab) (lt_irrefl a)), if_pos hab]
        simp only [Bool.false_eq_true, false_iff, not_not]
        exact List.Lex.rel hab

/-- `strLeb` agrees with the order on `String`. -/
theorem strLeb_iff (a b : String) : strLeb a b = true ↔ a ≤ b := by
  rw [String.le_iff_toList_le]
  exact charsLeb_iff a.data b.data

/-- The `strLeb` relation is total. -/
theorem strLeb_isTotal : IsTotal String (fun a b => strLeb a b = true) :=
  ⟨fun a b => by
    rcases le_total a b with h | h
    · exact Or.inl ((strLeb_iff a b).mpr h)
    · exact Or.inr ((strLeb_iff b a).mpr h)⟩

/-- The `strLeb` relation is transitive. -/
theorem strLeb_isTrans : IsTrans String (fun a b => strLeb a b = true) :=
  ⟨fun a b c hab hbc =>
    (strLeb_iff a c).mpr (((strLeb_iff a b).mp hab).trans ((strLeb_iff b c).mp hbc))⟩

/-- Every member of a list of naturals is bounded by its `foldr max 0`. -/
theorem le_foldr_max (l : List Nat) (a : Nat) (ha : a ∈ l) : a ≤ l.foldr max 0 := by
  induction l with
  | nil => cases ha
  | cons x xs ih =>
    rcases List.mem_cons.mp ha with rfl | ha2
    · exact le_max_left _ _
    · exact le_trans (ih ha2) (le_max_right _ _)

/-- `foldr max 0` over a nonempty list of naturals is attained or zero. -/
theorem foldr_max_attained (l : List Nat) (h : l ≠ []) :
    l.foldr max 0 ∈ l ∨ l.foldr max 0 = 0 := by
  induction l with
  | nil => exact absurd rfl h
  | cons x xs ih =>
    cases xs with
    | nil => simp
    | cons y ys =>
      rcases le_or_lt ((y :: ys).foldr max 0) x with hle | hlt
      · left
        simp only [List.foldr_cons] at *
        rw [max_eq_left hle]
        exact List.mem_cons_self _ _
      · rcases ih (by simp) with hmem | hzero
        · left
          simp only [List.foldr_cons] at *
          rw [max_eq_right (le_of_lt hlt)]
          exact List.mem_cons_of_mem _ hmem
        · right
          simp only [List.foldr_cons] at *
          rw [max_eq_right (le_of_lt hlt), hzero]

/-- C9: filtering is idempotent — for every dataset `D` and every triple
of allowed sets, `filter(filter(D, S), S) = filter(D, S)`. -/
theorem claim9_filter_idempotent (df : List Record) (fE fB fG : List String) :
    filterRecords (filterRecords df fE fB fG) fE fB fG = filterRecords df fE fB fG := by
  simp [filterRecords, List.filter_filter]

/-- A cell passes `isin` exactly when it is non-null with a value among
the options. -/
theorem isin_eq_true_iff (o : Option String) (s : List String) :
    isin o s = true ↔ optMem o s := by
  cases o with
  | none => simp [isin, optMem]
  | some v => simp [isin, optMem, List.elem_iff]

/-- No cell passes `isin` against an empty option list. -/
theorem isin_nil (o : Option String) : isin o [] = false := by
  cases o <;> simp [isin]

/-- C5: a record is in the filtered subset iff it is in the dataset and
its `EstadoCivil`, `RangoEdad` and `Genero` are each members of the
corresponding allowed set; an empty allowed set in any one dimension
yields the empty subset. -/
theorem claim5_filter_membership (df : List Record) (fE fB fG : List String) (r : Record) :
    (r ∈ filterRecords df fE fB fG ↔
      r ∈ df ∧ optMem r.estadoCivil fE ∧ optMem r.rangoEdad fB ∧ optMem r.genero fG)
    ∧ filterRecords df [] fB fG = []
    ∧ filterRecords df fE [] fG = []
    ∧ filterRecords df fE fB [] = [] := by
  refine ⟨?_, ?_, ?_, ?_⟩
  · rw [filterRecords, List.mem_filter]
    simp only [Bool.and_eq_true, isin_eq_true_iff]
    tauto
  · exact List.filter_eq_nil_iff.mpr (fun r _ => by simp [isin_nil])
  · exact List.filter_eq_nil_iff.mpr (fun r _ => by simp [isin_nil])
  · exact List.filter_eq_nil_iff.mpr (fun r _ => by simp [isin_nil])

/-- C3 counterexample: a dataset whose `Gender` column is present but
holds the value `"X"` derives a missing `Genero` — the claim's "Gender
... is never missing" is false on the code, which only synthesizes when
the whole column is absent and maps any non-`M`/`F` value to `NaN`. -/
theorem claim3_counterexample : (enrichRow 2024 true 0 rawGenX).genero = none := rfl

/-- C3 (amended): when the `Gender` column is absent the derived `Genero`
is synthesized and is always one of the two labels; when the column is
present, `M`/`F` map to `Hombre`/`Mujer` and any other or missing value
leaves `Genero` missing. -/
theorem claim3_amended_gender_derivation (cy : Int) (i : Nat) (row : RawRow) :
    (∃ g, (enrichRow cy false i row).genero = some g ∧ (g = "Hombre" ∨ g = "Mujer"))
    ∧ (enrichRow cy true i row).genero
        = (if row.gender = some "M" then some "Hombre"
           else if row.gender = some "F" then some "Mujer" else none) := by
  constructor
  · refine ⟨npRandomChoiceHM 42 i, rfl, ?_⟩
    unfold npRandomChoiceHM
    split
    · exact Or.inl rfl
    · exact Or.inr rfl
  · show mapGenderMF row.gender = _
    cases hg : row.gender with
    | none => simp [mapGenderMF]
    | some v => by_cases hv : v = "M" <;> by_cases hf : v = "F" <;>
        simp [mapGenderMF, hv, hf]

/-- C8: gender synthesis is deterministic — two loader+deriver runs on an
identical input file produce identical `Genero` sequences; formally the
`Genero` column of the load result does not depend on the clock year, the
only ambient input differing between two runs on the same file. -/
theorem claim8_gender_deterministic (cy₁ cy₂ : Int) (fc : FileContent) :
    generoColumn (cargarDatos cy₁ fc) = generoColumn (cargarDatos cy₂ fc) := by
  cases fc with
  | unreadable => rfl
  | emptyFile => rfl
  | table hasG rows =>
    simp only [cargarDatos, generoColumn, enrichAll, Except.map, List.map_map]
    rfl

/-- C1 counterexample: for the enriched one-row dataset `dfJoven` (age 5,
so a null `RangoEdad`), filtering with all-available option sets drops the
row instead of returning the full dataset unchanged. -/
theorem claim1_counterexample :
    filterRecords dfJoven (estadosCiviles dfJoven) (rangosEdades dfJoven) (generos dfJoven) = []
    ∧ dfJoven ≠ [] := by
  constructor
  · decide
  · decide

/-- C1 (amended): filtering with the all-available option sets returns
exactly the records whose `EstadoCivil`, `RangoEdad` and `Genero` are all
non-null, in the original order — hence the full dataset unchanged
precisely when every record carries all three fields. -/
theorem claim1_amended_full_options (df : List Record) :
    filterRecords df (estadosCiviles df) (rangosEdades df) (generos df)
      = df.filter (fun r =>
          r.estadoCivil.isSome && r.rangoEdad.isSome && r.genero.isSome) := by
  rw [filterRecords]
  apply List.filter_congr
  intro r hr
  have comp : ∀ f : Record → Option String,
      isin (f r) (dropnaUnique (df.map f)) = (f r).isSome := by
    intro f
    cases h : f r with
    | none => simp [isin]
    | some v =>
      simp only [isin, Option.isSome_some]
      apply List.elem_iff.mpr
      apply List.mem_dedup.mpr
      apply List.mem_filterMap.mpr
      exact ⟨some v, h ▸ List.mem_map_of_mem f hr, rfl⟩
  simp only [estadosCiviles, rangosEdades, generos, comp]

/-- The mean of a series is non-`NaN` exactly when the series is
nonempty. -/
theorem meanOpt_isSome (xs : List ℚ) : (meanOpt xs).isSome = true ↔ xs ≠ [] := by
  by_cases h : xs.length = 0 <;>
    simp [meanOpt, h, List.length_eq_zero.symm]

/-- C2 counterexample: over the one-row subset `dfVeinte`, whose only
bracket is `20-29`, `gasto_por_rango` still carries an entry for the
absent bracket `10-19` (with a `NaN` mean): the groupby runs on a
categorical key with `observed=False`, so its entries are all nine
categories, not only the brackets present in the subset. -/
theorem claim2_counterexample :
    ("10-19", (none : Option ℚ)) ∈ gastoPorRango dfVeinte
    ∧ (∀ r ∈ dfVeinte, r.rangoEdad ≠ some "10-19") := by
  constructor
  · decide
  · decide

/-- C2 (amended): `gasto_por_rango` lists all nine bracket labels in
ascending bracket order, each exactly once, and an entry's mean is
non-missing exactly when its bracket occurs in the subset. -/
theorem claim2_amended_brackets (sub : List Record) :
    (gastoPorRango sub).map Prod.fst
        = ["10-19", "20-29", "30-39", "40-49", "50-59",
           "60-69", "70-79", "80-89", "90-99"]
    ∧ ∀ b m, (b, m) ∈ gastoPorRango sub →
        ((m.isSome = true) ↔ ∃ r ∈ sub, r.rangoEdad = some b) := by
  constructor
  · rw [gastoPorRango, List.map_map]
    have hfst : (Prod.fst ∘ fun b : String =>
        (b, meanOpt ((sub.filter (fun r => r.rangoEdad = some b)).map (·.gastoTotal))))
        = id := rfl
    rw [hfst, List.map_id]
    decide
  · intro b m hm
    rw [gastoPorRango, List.mem_map] at hm
    obtain ⟨c, _, hpair⟩ := hm
    rw [Prod.mk.injEq] at hpair
    obtain ⟨rfl, rfl⟩ := hpair
    rw [meanOpt_isSome]
    simp only [ne_eq, List.map_eq_nil_iff, List.filter_eq_nil_iff]
    push_neg
    simp

/-- C2 (amended) witness: the concrete bracket entry of `dfVeinte` for
`20-29`, the one bracket present in that subset, carries a non-missing
mean. -/
theorem claim2_amended_witness :
    (("20-29", meanOpt [gastoTotalOf rawVeinte]) ∈ gastoPorRango dfVeinte)
    ∧ (((meanOpt [gastoTotalOf rawVeinte]).isSome = true)
        ↔ ∃ r ∈ dfVeinte, r.rangoEdad = some "20-29") := by
  have hmem : ("20-29", meanOpt [gastoTotalOf rawVeinte]) ∈ gastoPorRango dfVeinte :=
    List.mem_map_of_mem _ (by decide : "20-29" ∈ cutLabels)
  exact ⟨hmem,
    (claim2_amended_brackets dfVeinte).2 "20-29" (meanOpt [gastoTotalOf rawVeinte]) hmem⟩

/-- C4: a record's `RangoEdad` is non-null exactly when its age lies in
`[10, 100)`, and then its label is the decade bucket from
`floor(Edad/10)*10` to `floor(Edad/10)*10 + 9`. -/
theorem claim4_decade_bucket (e : Int) :
    ((rangoEdadOf e).isSome = true ↔ (10 ≤ e ∧ e < 100))
    ∧ (10 ≤ e → e < 100 →
        rangoEdadOf e
          = some (toString (10 * (e / 10)) ++ "-" ++ toString (10 * (e / 10) + 9))) := by
  by_cases h : 10 ≤ e ∧ e < 100
  · obtain ⟨h1, h2⟩ := h
    interval_cases e <;> exact ⟨by decide, fun _ _ => by decide⟩
  · have hzip : bins.zip bins.tail
        = [(10, 20), (20, 30), (30, 40), (40, 50), (50, 60),
           (60, 70), (70, 80), (80, 90), (90, 100)] := by decide
    have hnone : pdCutIndex e = none := by
      rw [pdCutIndex, List.findIdx?_eq_none_iff]
      intro p hp
      rw [hzip] at hp
      fin_cases hp <;> simp only [decide_eq_false_iff_not, not_and, not_lt] <;> omega
    rw [not_and_or, not_lt, not_le] at h
    refine ⟨?_, ?_⟩
    · rw [rangoEdadOf, hnone]
      simp only [Option.map_none', Option.isSome_none, Bool.false_eq_true, false_iff]
      omega
    · intro h1 h2
      rcases h with h | h <;> omega

/-- C4 witness: age 34 sits in the `30-39` bucket. -/
theorem claim4_witness :
    ((rangoEdadOf 34).isSome = true ↔ (10 ≤ (34 : Int) ∧ (34 : Int) < 100))
    ∧ rangoEdadOf 34
        = some (toString (10 * ((34 : Int) / 10)) ++ "-"
            ++ toString (10 * ((34 : Int) / 10) + 9)) :=
  ⟨(claim4_decade_bucket 34).1, (claim4_decade_bucket 34).2 (by decide) (by decide)⟩

/-- C6 counterexample: a readable file with a header row but zero data
rows loads successfully into an empty dataset — `pd.read_csv` only raises
on files with no columns at all, so the claim's "fails … when the file …
contains zero data rows" is false on the code. -/
theorem claim6_counterexample :
    cargarDatos 2024 (FileContent.table false []) = .ok [] := rfl

/-- C6 (amended): loading fails exactly when the file cannot be opened or
has no columns at all; any file with a header loads into one record per
data row, in source row order (a header-only file gives an empty
dataset). -/
theorem claim6_amended_load (cy : Int) (fc : FileContent) :
    ((∃ msg, cargarDatos cy fc = .error msg)
        ↔ (fc = FileContent.unreadable ∨ fc = FileContent.emptyFile))
    ∧ (∀ hasG rows recs, fc = FileContent.table hasG rows →
        cargarDatos cy fc = .ok recs →
        recs.length = rows.length
          ∧ ∀ i, recs[i]? = (rows[i]?).map (enrichRow cy hasG i)) := by
  constructor
  · cases fc with
    | unreadable => simp [cargarDatos]
    | emptyFile => simp [cargarDatos]
    | table hasG rows => simp [cargarDatos]
  · intro hasG rows recs hfc hok
    subst hfc
    rw [cargarDatos] at hok
    injection hok with hok
    constructor
    · rw [← hok, enrichAll, List.length_map, List.enum_length]
    · intro i
      rw [← hok, enrichAll, List.getElem?_map, List.getElem?_enum]
      cases hrow : rows[i]? with
      | none => rfl
      | some row => rfl

/-- C6 (amended) witness: a concrete one-row table loads into one record
at the same position. -/
theorem claim6_amended_witness :
    (enrichAll 2024 true [rawGenX]).length = ([rawGenX] : List RawRow).length
    ∧ (enrichAll 2024 true [rawGenX])[0]?
        = (([rawGenX] : List RawRow)[0]?).map (enrichRow 2024 true 0) := by
  have h := (claim6_amended_load 2024 (FileContent.table true [rawGenX])).2 true [rawGenX]
      (enrichAll 2024 true [rawGenX]) rfl rfl
  exact ⟨h.1, h.2 0⟩

/-- C7: on a loaded (nonempty) dataset, an empty filtered subset renders
without raising: the count is 0, the per-cent is 0, the mean aggregates
are the `NaN` flag, the dominant gender is the `N/A` marker, and the run
stops before any chart or insight is computed. -/
theorem claim7_empty_subset (df sub : List Record) (hdf : df ≠ []) (hsub : sub = []) :
    renderDashboard df sub = .ok
      { clientesSegmentados := 0, pctDelTotal := 0, gastoProm := none,
        edadProm := none, generoDominante := none, despuesDeStop := none } := by
  subst hsub
  cases df with
  | nil => exact absurd rfl hdf
  | cons d t =>
    simp [renderDashboard, meanOpt]
    rfl

/-- C7 witness: the concrete dataset `dfVeinte` with nothing matching the
filters. -/
theorem claim7_witness :
    renderDashboard dfVeinte [] = .ok
      { clientesSegmentados := 0, pctDelTotal := 0, gastoProm := none,
        edadProm := none, generoDominante := none, despuesDeStop := none } :=
  claim7_empty_subset dfVeinte [] (by decide) rfl

/-- C10: for every nonempty column, `mode()[0]` — used for both the
dominant gender and the dominant marital status — is a most-frequent
value and, among equally most-frequent values, the lexicographically
smallest (pandas sorts the mode result ascending and the script indexes
element 0). -/
theorem claim10_mode_tiebreak (xs : List String) (h : xs ≠ []) :
    ∃ g, modeFirst xs = some g ∧ g ∈ xs
      ∧ (∀ v ∈ xs, countVal xs v ≤ countVal xs g)
      ∧ (∀ v ∈ xs, countVal xs v = countVal xs g → g ≤ v) := by
  obtain ⟨x₀, hx₀⟩ := List.exists_mem_of_ne_nil xs h
  have hx₀d : x₀ ∈ xs.dedup := List.mem_dedup.mpr hx₀
  have hcount_le : ∀ v ∈ xs.dedup, countVal xs v ≤ maxCount xs := by
    intro v hv
    exact le_foldr_max _ _ (List.mem_map_of_mem (countVal xs) hv)
  have hmax_pos : 1 ≤ maxCount xs := by
    have h1 : 0 < countVal xs x₀ := List.count_pos_iff.mpr hx₀
    exact le_trans h1 (hcount_le x₀ hx₀d)
  have hattained : ∃ w ∈ xs.dedup, countVal xs w = maxCount xs := by
    rcases foldr_max_attained (xs.dedup.map (countVal xs))
        (by
          intro hnil
          rw [List.map_eq_nil_iff] at hnil
          rw [hnil] at hx₀d
          cases hx₀d) with hmem | hzero
    · rw [List.mem_map] at hmem
      obtain ⟨w, hw, hweq⟩ := hmem
      exact ⟨w, hw, hweq⟩
    · rw [maxCount] at hmax_pos
      omega
  obtain ⟨w, hw, hweq⟩ := hattained
  have hwfilt : w ∈ xs.dedup.filter (fun v => countVal xs v = maxCount xs) := by
    rw [List.mem_filter]
    exact ⟨hw, by simp [hweq]⟩
  have hperm := List.perm_insertionSort (fun a b => strLeb a b = true)
      (xs.dedup.filter (fun v => countVal xs v = maxCount xs))
  have hwmode : w ∈ modeList xs := by
    rw [modeList]
    exact hperm.mem_iff.mpr hwfilt
  have hsorted : List.Sorted (fun a b => strLeb a b = true) (modeList xs) := by
    rw [modeList]
    haveI := strLeb_isTotal
    haveI := strLeb_isTrans
    exact List.sorted_insertionSort _ _
  cases hml : modeList xs with
  | nil =>
    rw [hml] at hwmode
    cases hwmode
  | cons g rest =>
    have hgmode : g ∈ modeList xs := by
      rw [hml]
      exact List.mem_cons_self g rest
    have hgfilt : g ∈ xs.dedup.filter (fun v => countVal xs v = maxCount xs) := by
      rw [modeList] at hgmode
      exact hperm.mem_iff.mp hgmode
    rw [List.mem_filter] at hgfilt
    obtain ⟨hgd, hgcnt⟩ := hgfilt
    have hgcount : countVal xs g = maxCount xs := by
      simpa using hgcnt
    refine ⟨g, ?_, List.mem_dedup.mp hgd, ?_, ?_⟩
    · rw [modeFirst, hml]
      rfl
    · intro v hv
      rw [hgcount]
      exact hcount_le v (List.mem_dedup.mpr hv)
    · intro v hv hveq
      have hvfilt : v ∈ xs.dedup.filter (fun va => countVal xs va = maxCount xs) := by
        rw [List.mem_filter]
        exact ⟨List.mem_dedup.mpr hv, by simp [hveq, hgcount]⟩
      have hvmode : v ∈ modeList xs := by
        rw [modeList]
        exact hperm.mem_iff.mpr hvfilt
      rw [hml] at hvmode
      rcases List.mem_cons.mp hvmode with rfl | hvrest
      · exact le_refl v
      · rw [hml] at hsorted
        have hle := (List.sorted_cons.mp hsorted).1 v hvrest
        exact (strLeb_iff g v).mp hle

/-- C10 witness: on a one-to-one `Hombre`/`Mujer` tie the mode head is
`"Hombre"`, the lexicographically smaller label. -/
theorem claim10_witness :
    modeFirst ["Hombre", "Mujer"] = some "Hombre"
    ∧ (∃ g, modeFirst ["Hombre", "Mujer"] = some g ∧ g ∈ ["Hombre", "Mujer"]
        ∧ (∀ v ∈ ["Hombre", "Mujer"],
            countVal ["Hombre", "Mujer"] v ≤ countVal ["Hombre", "Mujer"] g)
        ∧ (∀ v ∈ ["Hombre", "Mujer"],
            countVal ["Hombre", "Mujer"] v = countVal ["Hombre", "Mujer"] g → g ≤ v)) :=
  ⟨by decide, claim10_mode_tiebreak ["Hombre", "Mujer"] (by decide)⟩
